import Mathlib

/-!
Verification development for the MB exchange-rate notification bot
(two near-duplicate Python variants: a structured-API fetcher in
`mb_exchange_bot.py` and a markup-scrape fetcher in
`mb_exchange_bot_webgia.py`).

The shallow embedding models:
* the result dictionary returned by `scrape_aud_rate` (`RateResult`);
* the upstream behaviour seen by one fetch attempt (an inductive type:
  timeout, any other raised exception, or an HTTP response);
* the HTML page already parsed into tables/rows/cells of text (the
  `get_text(strip=True)` results), since BeautifulSoup is an external,
  lenient parser;
* the JSON body of the structured API already parsed into its fields;
* the subscriber store (a finite set of integer chat ids plus the parsed
  content of `subscribers.json`);
* the per-recipient delivery loop of `send_daily_rate`.

Python strings are modelled as Lean `String`s; `str.upper`, the regex
`[^\d,.]` strip and substring containment are modelled on ASCII, which
covers every literal the program compares against.  JSON numbers are
modelled as exact rationals.
-/

/-- The dictionary returned by `scrape_aud_rate` in both variants: keys
`success`, and optionally `rate`, `currency`, `source`, `error`. -/
structure RateResult where
  success : Bool
  rate : Option String := none
  currency : Option String := none
  source : Option String := none
  error : Option String := none
  deriving DecidableEq, Repr

/-- Python `'needle' in hay` substring containment on character lists. -/
def containsSub (needle : List Char) : List Char → Bool
  | [] => needle.isEmpty
  | c :: t => needle.isPrefixOf (c :: t) || containsSub needle t

/-- Python `str.upper()` (ASCII model). -/
def pyUpper (s : String) : String := String.mk (s.data.map Char.toUpper)

/-- `re.sub(r'[^\d,.]', '', s)`: keep only digits, comma and dot
(mb_exchange_bot_webgia.py line 98). -/
def cleanRate (s : String) : String :=
  String.mk (s.data.filter (fun c => c.isDigit || c = ',' || c = '.'))

/-- An HTML page as seen by the scraper: `soup.find('table')` picks the
first table; a table is its list of `tr` rows; a row is the list of its
`td` cells' stripped text. -/
structure Page where
  tables : List (List (List String))
  deriving Repr

/-- What a single fetch attempt of the webgia variant observes from the
upstream: a timeout, any other raised exception (with its `str(e)`), or
an HTTP response carrying a status and the parsed page.  `scrape_aud_rate`
makes exactly one attempt, so it is a function of one such behaviour. -/
inductive UpstreamWeb where
  | timeout
  | exn (msg : String)
  | response (status : Nat) (page : Page)

/-- The row loop of `mb_exchange_bot_webgia.py` lines 85-106: first row
with at least 6 cells whose first cell's upper-cased text contains
`AUD` and whose cleaned 6th cell (index 5) is non-empty and differs from
the placeholder artifact `webgia.com` yields that cleaned value. -/
def findAudRate : List (List String) → Option String
  | [] => none
  | cells :: rest =>
    if 6 ≤ cells.length then
      if containsSub "AUD".data (pyUpper (cells.getD 0 "")).data then
        let r := cleanRate (cells.getD 5 "")
        if r ≠ "" ∧ r ≠ "webgia.com" then some r else findAudRate rest
      else findAudRate rest
    else findAudRate rest

/-- `scrape_aud_rate` of `mb_exchange_bot_webgia.py` (lines 55-128). -/
def scrape_aud_rate_webgia : UpstreamWeb → RateResult
  | .timeout =>
    { success := false, error := some "Request timeout. Please try again later." }
  | .exn m =>
    { success := false, error := some ("Error: " ++ m) }
  | .response status page =>
    if status = 200 then
      match page.tables.head? with
      | none =>
        { success := false, error := some "Exchange rate table not found on page" }
      | some rows =>
        match findAudRate rows with
        | some r => { success := true, rate := some r, currency := some "AUD" }
        | none =>
          { success := false,
            error := some "AUD rate not found in the table. The website might have changed its structure." }
    else
      { success := false,
        error := some ("Failed to fetch page. HTTP Status: " ++ toString status) }

/-- Any rate produced by the row loop is non-empty and is not the
placeholder artifact: the guard on line 101 of the webgia variant. -/
theorem findAudRate_good :
    ∀ (rows : List (List String)) (r : String),
      findAudRate rows = some r → r ≠ "" ∧ r ≠ "webgia.com" := by
  intro rows
  induction rows with
  | nil => intro r h; simp [findAudRate] at h
  | cons cells rest ih =>
    intro r h
    simp only [findAudRate] at h
    split at h
    · split at h
      · split at h
        · rename_i hgood
          cases h
          exact hgood
        · exact ih r h
      · exact ih r h
    · exact ih r h

/-- Any successful webgia scrape carries a rate that is non-empty and is
not the placeholder artifact string. -/
theorem scrape_webgia_success_good (u : UpstreamWeb) (r : String)
    (h : (scrape_aud_rate_webgia u).rate = some r) :
    r ≠ "" ∧ r ≠ "webgia.com" := by
  cases u with
  | timeout => simp [scrape_aud_rate_webgia] at h
  | exn m => simp [scrape_aud_rate_webgia] at h
  | response status page =>
    simp only [scrape_aud_rate_webgia] at h
    split at h
    · rename_i h200
      cases htab : page.tables.head? with
      | none => rw [htab] at h; simp at h
      | some rows =>
        rw [htab] at h
        dsimp only at h
        cases hfind : findAudRate rows with
        | none => rw [hfind] at h; simp at h
        | some r0 =>
          rw [hfind] at h
          simp at h
          subst h
          exact findAudRate_good rows r0 hfind
    · simp at h

/-- C1: in the markup-scrape strategy, a matched AUD row whose cleaned
6th cell is empty or equal to the placeholder artifact `webgia.com` is
never returned as a success: the fetch result's rate is never that
cell's cleaned content. -/
theorem C1_bad_cell_never_success (page : Page) (rows : List (List String))
    (row : List String)
    (htab : page.tables.head? = some rows) (hrow : row ∈ rows)
    (hlen : 6 ≤ row.length)
    (haud : containsSub "AUD".data (pyUpper (row.getD 0 "")).data = true)
    (hbad : cleanRate (row.getD 5 "") = "" ∨ cleanRate (row.getD 5 "") = "webgia.com") :
    (scrape_aud_rate_webgia (.response 200 page)).rate ≠ some (cleanRate (row.getD 5 "")) := by
  intro hcontra
  have hgood := scrape_webgia_success_good _ _ hcontra
  cases hbad with
  | inl he => exact hgood.1 he
  | inr ha => exact hgood.2 ha

/-- C1 witness: a concrete page whose single AUD row has an empty cleaned
rate cell; the fetch never reports that empty value as a success. -/
theorem C1_bad_cell_never_success_witness :
    (scrape_aud_rate_webgia
        (.response 200 ⟨[[["AUD", "Australian Dollar", "x", "x", "x", "-", "x"]]]⟩)).rate ≠
      some (cleanRate (["AUD", "Australian Dollar", "x", "x", "x", "-", "x"].getD 5 "")) :=
  C1_bad_cell_never_success
    ⟨[[["AUD", "Australian Dollar", "x", "x", "x", "-", "x"]]]⟩
    [["AUD", "Australian Dollar", "x", "x", "x", "-", "x"]]
    ["AUD", "Australian Dollar", "x", "x", "x", "-", "x"]
    (by decide) (by decide) (by decide) (by decide) (Or.inl (by decide))

/-- C2 counterexample: on the spec's example row
`["AUD","Australian Dollar","X","X","X","16,500.50","X"]` the code keeps
the comma (the regex strips only characters outside digits/comma/dot),
so the returned rate is `"16,500.50"`, not the claimed `"16500.50"`. -/
theorem C2_counterexample :
    (scrape_aud_rate_webgia
        (.response 200 ⟨[[["AUD", "Australian Dollar", "X", "X", "X", "16,500.50", "X"]]]⟩)).rate ≠
        some "16500.50" ∧
    (scrape_aud_rate_webgia
        (.response 200 ⟨[[["AUD", "Australian Dollar", "X", "X", "X", "16,500.50", "X"]]]⟩)).rate =
      some "16,500.50" := by
  constructor
  · decide
  · decide

/-- C2 amended: on the spec's example row the fetch succeeds and returns
the cleaned 6th cell with the comma retained: `"16,500.50"`. -/
theorem C2_amended :
    scrape_aud_rate_webgia
        (.response 200 ⟨[[["AUD", "Australian Dollar", "X", "X", "X", "16,500.50", "X"]]]⟩) =
      { success := true, rate := some "16,500.50", currency := some "AUD" } := by
  decide

/-- The parsed state of `subscribers.json` as `load_subscribers` sees it
(identical in both variants, mb_exchange_bot.py lines 31-51).  The file
may be absent (`Path(...).exists()` false), may make `json.load` /
`set(...)` raise (any unparseable or non-array content), or may hold a
JSON array of integers.  The `json` module is an external library; its
dump/load of an integer list is modelled at the parsed-value level. -/
inductive FileState where
  | absent
  | corrupt
  | ints (l : List Int)
  deriving DecidableEq, Repr

/-- `load_subscribers` (lines 31-41): if the file exists, replace the
in-memory set with the parsed content; on any exception, fall back to the
empty set; if the file is absent, leave the current set unchanged. -/
def load_subscribers (fs : FileState) (prev : Finset Int) : Finset Int :=
  match fs with
  | .absent => prev
  | .corrupt => ∅
  | .ints l => l.toFinset

/-- `save_subscribers` (lines 44-51), success path: the file now holds
`json.dump(list(subscribed_users))`, a JSON array listing the set once
each (write failures are logged and absorbed; the claims quantify over
the successful write).  Python enumerates the set in an unspecified
order; the model enumerates it in ascending order. -/
def save_subscribers (s : Finset Int) : FileState :=
  .ints (s.sort (· ≤ ·))

/-- The bot's subscriber-relevant state: the in-memory global
`subscribed_users` and the durable file. -/
structure BotState where
  subs : Finset Int
  file : FileState
  deriving DecidableEq

/-- `subscribe_command` (lines 176-197), restricted to its state effect:
if the user id is already subscribed only a reply is sent (modelled as
returning `false`); otherwise the id is added, the set is saved, and the
success reply is sent (`true`). -/
def subscribe_command (uid : Int) (st : BotState) : BotState × Bool :=
  if uid ∈ st.subs then (st, false)
  else
    let subs := insert uid st.subs
    ({ subs := subs, file := save_subscribers subs }, true)

/-- `unsubscribe_command` (lines 199-218), restricted to its state
effect: if the user id is subscribed it is removed and the set saved
(`true`); otherwise nothing changes and only a reply is sent
(`false`). -/
def unsubscribe_command (uid : Int) (st : BotState) : BotState × Bool :=
  if uid ∈ st.subs then
    let subs := st.subs.erase uid
    ({ subs := subs, file := save_subscribers subs }, true)
  else (st, false)

/-- C5: round-trip persistence: saving any finite set of integer ids and
loading it back yields an equal set, whatever the in-memory set was at
load time. -/
theorem C5_save_load_roundtrip (S : Finset Int) (prev : Finset Int) :
    load_subscribers (save_subscribers S) prev = S := by
  simp [load_subscribers, save_subscribers]

/-- C9: loading from a corrupted/unparseable subscriber file yields the
empty set (the exception is caught, never escalated), whatever the
in-memory set was before. -/
theorem C9_corrupt_load_empty (prev : Finset Int) :
    load_subscribers FileState.corrupt prev = ∅ := rfl

/-- C7 counterexample: the claim quantifies over every subscriber-set
state, but when the id is already subscribed the first `add` returns
`false`, not `true`: user 5 subscribing while already in the set. -/
theorem C7_counterexample :
    (subscribe_command 5 ⟨{5}, FileState.ints [5]⟩).2 = false := by
  decide

/-- C7 amended: for every id *not already subscribed*, the first
subscribe returns `true` and persists the new set; the second subscribe
returns `false` and changes neither the in-memory state nor the file (in
particular the persisted set's cardinality is unchanged). -/
theorem C7_add_twice (uid : Int) (st : BotState) (h : uid ∉ st.subs) :
    (subscribe_command uid st).2 = true ∧
    (subscribe_command uid st).1.file =
      save_subscribers (insert uid st.subs) ∧
    (subscribe_command uid (subscribe_command uid st).1).2 = false ∧
    (subscribe_command uid (subscribe_command uid st).1).1 =
      (subscribe_command uid st).1 := by
  simp [subscribe_command, h]

/-- C7 witness: id 7 on the empty state: first call returns true and
persists `{7}`, second call returns false and changes nothing. -/
theorem C7_add_twice_witness :
    (subscribe_command 7 ⟨∅, FileState.ints []⟩).2 = true ∧
    (subscribe_command 7 ⟨∅, FileState.ints []⟩).1.file =
      save_subscribers (insert 7 (∅ : Finset Int)) ∧
    (subscribe_command 7 (subscribe_command 7 ⟨∅, FileState.ints []⟩).1).2 = false ∧
    (subscribe_command 7 (subscribe_command 7 ⟨∅, FileState.ints []⟩).1).1 =
      (subscribe_command 7 ⟨∅, FileState.ints []⟩).1 :=
  C7_add_twice 7 ⟨∅, FileState.ints []⟩ (by decide)

/-- C8: removing an id that is not subscribed returns `false` and leaves
the whole state — the in-memory set and the durable file — unchanged
(no save is performed). -/
theorem C8_remove_absent_noop (uid : Int) (st : BotState) (h : uid ∉ st.subs) :
    unsubscribe_command uid st = (st, false) := by
  simp [unsubscribe_command, h]

/-- C8 witness: unsubscribing id 3 from the state `{1, 2}` changes
nothing and reports `false`. -/
theorem C8_remove_absent_noop_witness :
    unsubscribe_command 3 ⟨{1, 2}, FileState.ints [1, 2]⟩ =
      (⟨{1, 2}, FileState.ints [1, 2]⟩, false) :=
  C8_remove_absent_noop 3 ⟨{1, 2}, FileState.ints [1, 2]⟩ (by decide)

/-- The per-broadcast tally kept by `send_daily_rate`
(`success_count` / `failed_count`, lines 249-265 of mb_exchange_bot.py,
identically lines 266-282 of the webgia variant). -/
structure DeliveryResult where
  succeeded : Nat
  failed : Nat
  deriving DecidableEq, Repr

/-- One iteration of the delivery loop: attempt the send to `u`; on
success increment `succeeded`, on any exception increment `failed`; in
both cases the recipient has been attempted and the loop continues. -/
def sendStep (outcome : Int → Bool) (acc : DeliveryResult × List Int) (u : Int) :
    DeliveryResult × List Int :=
  if outcome u then (⟨acc.1.succeeded + 1, acc.1.failed⟩, acc.2 ++ [u])
  else (⟨acc.1.succeeded, acc.1.failed + 1⟩, acc.2 ++ [u])

/-- The delivery loop of `send_daily_rate` over the snapshot
`subscribed_users.copy()` (given as a list in the set's unspecified
iteration order), with a fixed per-recipient outcome: the final tally
and the list of recipients to whom a send was attempted, in order. -/
def sendAll (outcome : Int → Bool) (snapshot : List Int) :
    DeliveryResult × List Int :=
  snapshot.foldl (sendStep outcome) (⟨0, 0⟩, [])

/-- `send_daily_rate`, delivery part: if the subscriber set is empty the
function returns before fetching or sending anything (`none`); otherwise
it runs the delivery loop over the snapshot. -/
def send_daily_rate (outcome : Int → Bool) (snapshot : List Int) :
    Option (DeliveryResult × List Int) :=
  if snapshot.isEmpty then none else some (sendAll outcome snapshot)

/-- Characterisation of the delivery loop from any starting accumulator:
successes and failures count the recipients whose send succeeds resp.
fails, and every recipient of the snapshot is attempted, in order. -/
theorem sendAll_foldl_spec (outcome : Int → Bool) :
    ∀ (snapshot : List Int) (s f : Nat) (a : List Int),
      snapshot.foldl (sendStep outcome) (⟨s, f⟩, a) =
        (⟨s + (snapshot.filter outcome).length,
          f + (snapshot.filter (fun u => !outcome u)).length⟩,
         a ++ snapshot) := by
  intro snapshot
  induction snapshot with
  | nil => intro s f a; simp
  | cons u rest ih =>
    intro s f a
    simp only [List.foldl_cons, sendStep]
    by_cases hu : outcome u = true
    · simp [hu, ih, List.filter_cons, Nat.add_assoc, Nat.add_comm 1]
    · rw [Bool.not_eq_true] at hu
      simp [hu, ih, List.filter_cons, Nat.add_assoc, Nat.add_comm 1]

/-- The delivery loop counts exactly the succeeding and failing
recipients and attempts every recipient of the snapshot. -/
theorem sendAll_spec (outcome : Int → Bool) (snapshot : List Int) :
    sendAll outcome snapshot =
      (⟨(snapshot.filter outcome).length,
        (snapshot.filter (fun u => !outcome u)).length⟩,
       snapshot) := by
  simpa using sendAll_foldl_spec outcome snapshot 0 0 []

/-- C4: per-recipient fault isolation in the broadcast: over any
three-recipient snapshot (in any iteration order) where exactly one
recipient's send fails, the tally is `{succeeded := 2, failed := 1}` and
every recipient — including those after the failing one — is still
attempted. -/
theorem C4_one_failure_isolated (snapshot : List Int) (outcome : Int → Bool)
    (hlen : snapshot.length = 3) (hnodup : snapshot.Nodup)
    (hone : (snapshot.filter (fun u => !outcome u)).length = 1) :
    send_daily_rate outcome snapshot = some (⟨2, 1⟩, snapshot) := by
  have hlenadd :
      (snapshot.filter outcome).length +
        (snapshot.filter (fun u => !outcome u)).length = 3 := by
    rw [← hlen]
    exact (List.length_eq_length_filter_add outcome).symm
  have hsucc : (snapshot.filter outcome).length = 2 := by omega
  have hne : ¬ snapshot.isEmpty := by
    cases snapshot with
    | nil => simp at hlen
    | cons u rest => simp
  simp [send_daily_rate, hne, sendAll_spec, hsucc, hone]

/-- C4 witness: recipients `[4, 5, 6]` where only the send to 5 fails:
the tally is `{succeeded := 2, failed := 1}` and all three are
attempted. -/
theorem C4_one_failure_isolated_witness :
    send_daily_rate (fun u => decide (u ≠ 5)) [4, 5, 6] =
      some (⟨2, 1⟩, [4, 5, 6]) :=
  C4_one_failure_isolated [4, 5, 6] (fun u => decide (u ≠ 5))
    (by decide) (by decide) (by decide)

/-- C10: over any non-empty snapshot of the subscriber set (no
duplicates), the broadcast attempts each recipient exactly once and the
final tally satisfies `succeeded + failed = n`, the snapshot's size;
each recipient lands in exactly one of the two counters (`succeeded`
counts exactly the succeeding sends, `failed` the failing ones). -/
theorem C10_tally_partition (snapshot : List Int) (outcome : Int → Bool)
    (hne : snapshot ≠ []) (hnodup : snapshot.Nodup) :
    ∃ res attempted,
      send_daily_rate outcome snapshot = some (res, attempted) ∧
      res.succeeded + res.failed = snapshot.length ∧
      res.succeeded = (snapshot.filter outcome).length ∧
      res.failed = (snapshot.filter (fun u => !outcome u)).length ∧
      attempted = snapshot ∧
      ∀ u ∈ snapshot, attempted.count u = 1 := by
  refine ⟨⟨(snapshot.filter outcome).length,
    (snapshot.filter (fun u => !outcome u)).length⟩, snapshot, ?_, ?_, rfl, rfl, rfl, ?_⟩
  · have hne' : ¬ snapshot.isEmpty := by
      cases snapshot with
      | nil => exact absurd rfl hne
      | cons u rest => simp
    simp [send_daily_rate, hne', sendAll_spec]
  · exact (List.length_eq_length_filter_add outcome).symm
  · intro u hu
    exact List.count_eq_one_of_mem hnodup hu

/-- C10 witness: snapshot `[10, 20]` where the send to 10 fails and the
send to 20 succeeds: the tally partitions the two recipients. -/
theorem C10_tally_partition_witness :
    ∃ res attempted,
      send_daily_rate (fun u => decide (u = 20)) [10, 20] = some (res, attempted) ∧
      res.succeeded + res.failed = [10, 20].length ∧
      res.succeeded = ([10, 20].filter (fun u => decide (u = 20))).length ∧
      res.failed = ([10, 20].filter (fun u => !decide (u = 20))).length ∧
      attempted = [10, 20] ∧
      ∀ u ∈ [10, 20], attempted.count u = 1 :=
  C10_tally_partition [10, 20] (fun u => decide (u = 20)) (by decide) (by decide)

/-- Floor of a rational (`⌊q⌋` computed on the reduced fraction). -/
def ratFloor (q : Rat) : Int := q.num.fdiv (q.den : Int)

/-- Round-half-to-even, the rounding used by Python's fixed-point
formatting.  JSON numbers are modelled as exact rationals. -/
def roundHalfEven (q : Rat) : Int :=
  let f := ratFloor q
  let r := q - (f : Rat)
  if r < 1 / 2 then f
  else if 1 / 2 < r then f + 1
  else if f % 2 = 0 then f else f + 1

/-- The decimal digits of a natural number, least significant first. -/
def natDecimalRev (n : Nat) : List Char :=
  if h : n < 10 then [Nat.digitChar n]
  else Nat.digitChar (n % 10) :: natDecimalRev (n / 10)
termination_by n
decreasing_by exact Nat.div_lt_self (by omega) (by omega)

/-- Insert a comma after every three digits, working over the reversed
(least-significant-first) digit list. -/
def groupRev (l : List Char) : List Char :=
  if h : l.length ≤ 3 then l
  else l.take 3 ++ ',' :: groupRev (l.drop 3)
termination_by l.length
decreasing_by simp [List.length_drop]; omega

/-- Python `f"{v:,.2f}"` (mb_exchange_bot.py line 76) on an exact
rational: round to two decimals half-to-even, group the integer digits
in threes with commas, always print exactly two fractional digits, and
prefix `-` for negative inputs. -/
def format2dp (q : Rat) : String :=
  (if q < 0 then "-" else "") ++
    String.mk ((groupRev (natDecimalRev ((roundHalfEven (q * 100)).natAbs / 100))).reverse) ++
    "." ++
    String.mk [Nat.digitChar ((roundHalfEven (q * 100)).natAbs % 100 / 10),
      Nat.digitChar ((roundHalfEven (q * 100)).natAbs % 100 % 10)]

/-- `Nat.digitChar` of a digit is an ASCII digit character. -/
theorem digitChar_isDigit (d : Nat) (h : d < 10) : (Nat.digitChar d).isDigit = true := by
  interval_cases d <;> decide

/-- The digit expansion of a natural number is never empty. -/
theorem natDecimalRev_ne_nil (n : Nat) : natDecimalRev n ≠ [] := by
  unfold natDecimalRev
  split <;> simp

/-- Every character of the digit expansion is a digit. -/
theorem natDecimalRev_digits (n : Nat) : ∀ c ∈ natDecimalRev n, c.isDigit = true := by
  induction n using Nat.strong_induction_on with
  | _ n ih =>
    unfold natDecimalRev
    split
    · rename_i h
      intro c hc
      simp only [List.mem_singleton] at hc
      subst hc
      exact digitChar_isDigit n h
    · rename_i h
      intro c hc
      simp only [List.mem_cons] at hc
      rcases hc with hc | hc
      · subst hc
        exact digitChar_isDigit (n % 10) (Nat.mod_lt _ (by omega))
      · exact ih (n / 10) (Nat.div_lt_self (by omega) (by omega)) c hc

/-- A reversed (least-significant-first) digit string correctly grouped
in thousands: a first group of one to three digits, then further groups
of exactly three digits, each group separated by a comma. -/
inductive GroupedRev : List Char → Prop
  | small (l : List Char) : l ≠ [] → l.length ≤ 3 →
      (∀ c ∈ l, c.isDigit = true) → GroupedRev l
  | chunk (l rest : List Char) : l.length = 3 → (∀ c ∈ l, c.isDigit = true) →
      GroupedRev rest → GroupedRev (l ++ ',' :: rest)

/-- The comma-insertion pass produces a correctly grouped list from any
non-empty digit list. -/
theorem groupRev_grouped (l : List Char) (h1 : l ≠ [])
    (h2 : ∀ c ∈ l, c.isDigit = true) : GroupedRev (groupRev l) := by
  unfold groupRev
  split
  · exact .small l h1 ‹_› h2
  · rename_i h3
    refine GroupedRev.chunk (l.take 3) (groupRev (l.drop 3)) ?_ ?_ ?_
    · simp [List.length_take]
      omega
    · intro c hc
      exact h2 c (List.take_subset 3 l hc)
    · refine groupRev_grouped (l.drop 3) ?_ (fun c hc => h2 c (List.drop_subset 3 l hc))
      refine List.length_pos.mp ?_
      simp [List.length_drop]
      omega
termination_by l.length
decreasing_by simp [List.length_drop]; omega

/-- Shape of a correctly formatted rate string: an optional minus sign,
a thousands-grouped integer part, a dot, and exactly two fractional
digits. -/
def TwoDecimalsGrouped (s : String) : Prop :=
  ∃ sign ip fp : String,
    s = sign ++ ip ++ "." ++ fp ∧ (sign = "" ∨ sign = "-") ∧
    fp.length = 2 ∧ (∀ c ∈ fp.data, c.isDigit = true) ∧
    GroupedRev ip.data.reverse

/-- Every output of the rate formatter has exactly two decimal places
and a thousands-grouped integer part. -/
theorem format2dp_shape (q : Rat) : TwoDecimalsGrouped (format2dp q) := by
  refine ⟨(if q < 0 then "-" else ""),
    String.mk ((groupRev (natDecimalRev ((roundHalfEven (q * 100)).natAbs / 100))).reverse),
    String.mk [Nat.digitChar ((roundHalfEven (q * 100)).natAbs % 100 / 10),
      Nat.digitChar ((roundHalfEven (q * 100)).natAbs % 100 % 10)],
    rfl, ?_, rfl, ?_, ?_⟩
  · by_cases h : q < 0 <;> simp [h]
  · intro c hc
    simp only [List.mem_cons, List.not_mem_nil, or_false] at hc
    rcases hc with hc | hc <;> subst hc
    · exact digitChar_isDigit _ (by omega)
    · exact digitChar_isDigit _ (by omega)
  · show GroupedRev ((groupRev (natDecimalRev _)).reverse.reverse)
    rw [List.reverse_reverse]
    exact groupRev_grouped _ (natDecimalRev_ne_nil _) (natDecimalRev_digits _)

/-- The parsed JSON body of the structured API
(`open.er-api.com`): the `result` field, the optional `error-type`
field, and the `rates` mapping (a finite string-to-number map, numbers
as exact rationals). -/
structure ApiResponse where
  result : Option String
  errorType : Option String
  rates : List (String × Rat)
  deriving DecidableEq

/-- What a single fetch attempt of the API variant observes from the
upstream: a timeout, any other raised exception (with its `str(e)`,
covering transport faults and JSON-parse failures), or an HTTP response
with its status and parsed body.  `scrape_aud_rate` makes exactly one
attempt, so it is a function of one such behaviour. -/
inductive UpstreamApi where
  | timeout
  | exn (msg : String)
  | response (status : Nat) (body : ApiResponse)

/-- Python `rates.get('VND')`: first binding of the key, if any. -/
def ratesGet (rates : List (String × Rat)) (k : String) : Option Rat :=
  (rates.find? (fun p => p.1 == k)).map (fun p => p.2)

/-- `scrape_aud_rate` of `mb_exchange_bot.py` (lines 54-110).  Note the
Python guard `if vnd_rate:` is a truthiness test: it also sends a
present-but-zero rate to the `VND rate not found` branch. -/
def scrape_aud_rate_api : UpstreamApi → RateResult
  | .timeout =>
    { success := false, error := some "Request timeout. Please try again later." }
  | .exn m =>
    { success := false, error := some ("Error: " ++ m) }
  | .response status body =>
    if status = 200 then
      if body.result = some "success" then
        match ratesGet body.rates "VND" with
        | some v =>
          if v ≠ 0 then
            { success := true, rate := some (format2dp v), currency := some "AUD",
              source := some "Global Market Rate" }
          else
            { success := false, error := some "VND rate not found in API response" }
        | none =>
          { success := false, error := some "VND rate not found in API response" }
      else
        { success := false,
          error := some ("API error: " ++ body.errorType.getD "Unknown error") }
    else
      { success := false,
        error := some ("Failed to fetch rate. HTTP Status: " ++ toString status) }

/-- C3 counterexample: a well-formed 200 response whose rates mapping
binds `VND` to the numeric value 0 is rejected by the truthiness guard
`if vnd_rate:`; the fetch reports failure, not the formatted value. -/
theorem C3_counterexample :
    scrape_aud_rate_api (.response 200 ⟨some "success", none, [("VND", 0)]⟩) =
      { success := false, error := some "VND rate not found in API response" } := by
  decide

/-- C3 amended: for every well-formed 200 response whose rates mapping
binds `VND` to a *nonzero* numeric value `v`, the fetch succeeds and
returns `v` formatted with exactly two decimal places and
thousands-grouped integer digits. -/
theorem C3_nonzero_vnd_success (body : ApiResponse) (v : Rat)
    (hres : body.result = some "success")
    (hv : ratesGet body.rates "VND" = some v) (hnz : v ≠ 0) :
    scrape_aud_rate_api (.response 200 body) =
      { success := true, rate := some (format2dp v), currency := some "AUD",
        source := some "Global Market Rate" } ∧
    TwoDecimalsGrouped (format2dp v) := by
  constructor
  · simp [scrape_aud_rate_api, hres, hv, hnz]
  · exact format2dp_shape v

/-- C3 witness: a response binding `VND` to 16500 yields a success
carrying the formatted rate. -/
theorem C3_nonzero_vnd_success_witness :
    scrape_aud_rate_api (.response 200 ⟨some "success", none, [("VND", 16500)]⟩) =
      { success := true, rate := some (format2dp 16500), currency := some "AUD",
        source := some "Global Market Rate" } ∧
    TwoDecimalsGrouped (format2dp 16500) :=
  C3_nonzero_vnd_success ⟨some "success", none, [("VND", 16500)]⟩ 16500
    rfl (by decide) (by decide)

/-- A fetch result that is total over the failure modes: either a
success, or a failure carrying a non-empty human-readable error
message. -/
def fetchTotalOk (r : RateResult) : Prop :=
  r.success = true ∨ (r.success = false ∧ ∃ e, r.error = some e ∧ e ≠ "")

/-- A string starting with a non-empty literal is non-empty. -/
theorem append_ne_empty_left (a b : String) (ha : a.length ≠ 0) : a ++ b ≠ "" := by
  intro h
  have hlen := congrArg String.length h
  rw [String.length_append] at hlen
  have h0 : ("" : String).length = 0 := rfl
  rw [h0] at hlen
  omega

/-- C6: both fetch strategies are total over their failure modes: for
every upstream behaviour seen by the single fetch attempt (timeout, any
other raised exception, any HTTP status, any body), the fetch returns a
result that is either a success or a failure carrying a non-empty
human-readable error message — no exception propagates. -/
theorem C6_fetch_total :
    (∀ u : UpstreamApi, fetchTotalOk (scrape_aud_rate_api u)) ∧
    (∀ u : UpstreamWeb, fetchTotalOk (scrape_aud_rate_webgia u)) := by
  constructor
  · intro u
    cases u with
    | timeout => exact Or.inr ⟨rfl, _, rfl, by decide⟩
    | exn m => exact Or.inr ⟨rfl, _, rfl, append_ne_empty_left _ _ (by decide)⟩
    | response status body =>
      simp only [scrape_aud_rate_api, fetchTotalOk]
      split
      · split
        · split
          · split
            · exact Or.inl rfl
            · exact Or.inr ⟨rfl, _, rfl, by decide⟩
          · exact Or.inr ⟨rfl, _, rfl, by decide⟩
        · exact Or.inr ⟨rfl, _, rfl, append_ne_empty_left _ _ (by decide)⟩
      · exact Or.inr ⟨rfl, _, rfl, append_ne_empty_left _ _ (by decide)⟩
  · intro u
    cases u with
    | timeout => exact Or.inr ⟨rfl, _, rfl, by decide⟩
    | exn m => exact Or.inr ⟨rfl, _, rfl, append_ne_empty_left _ _ (by decide)⟩
    | response status page =>
      simp only [scrape_aud_rate_webgia, fetchTotalOk]
      split
      · split
        · exact Or.inr ⟨rfl, _, rfl, by decide⟩
        · split
          · exact Or.inl rfl
          · exact Or.inr ⟨rfl, _, rfl, by decide⟩
      · exact Or.inr ⟨rfl, _, rfl, append_ne_empty_left _ _ (by decide)⟩
